import Mathlib

/-!
Verification of the in-memory banking ledger (`src/main.rs`).

The Rust core is embedded shallowly: `f64` amounts become `ℚ`,
the `HashMap<String, Account>` becomes a function `String → Option Account`,
and each `&mut self` method becomes a function returning the updated
structure (paired with the method's return value where it has one).
-/

/-- Mirrors Rust `enum AccountType { Checking, Savings, Credit }`. -/
inductive AccountType
  | Checking
  | Savings
  | Credit
  deriving DecidableEq

/-- Mirrors Rust `enum Transaction { Deposit(f64), Withdrawal(f64), Transfer(f64, String) }`. -/
inductive Transaction
  | Deposit (amount : ℚ)
  | Withdrawal (amount : ℚ)
  | Transfer (amount : ℚ) (counterparty : String)
  deriving DecidableEq

/-- Mirrors Rust `struct Account`. -/
structure Account where
  balance : ℚ
  account_type : AccountType
  transactions : List Transaction
  is_active : Bool
  deriving DecidableEq

/-- Mirrors `Account::new`: zero balance, given type, empty history, active. -/
def Account.new (account_type : AccountType) : Account :=
  { balance := 0
    account_type := account_type
    transactions := []
    is_active := true }

/-- Mirrors `Account::deposit`: if active, add `amount` to the balance and append a
Deposit record; if inactive, only print a message (no mutation). -/
def Account.deposit (a : Account) (amount : ℚ) : Account :=
  if a.is_active then
    { a with
      balance := a.balance + amount
      transactions := a.transactions ++ [Transaction.Deposit amount] }
  else
    a

/-- Mirrors `Account::withdraw`: fails (no mutation) when inactive or `amount > balance`;
otherwise subtracts `amount`, appends a Withdrawal record and returns `true`. -/
def Account.withdraw (a : Account) (amount : ℚ) : Account × Bool :=
  if a.is_active then
    if amount > a.balance then
      (a, false)
    else
      ({ a with
          balance := a.balance - amount
          transactions := a.transactions ++ [Transaction.Withdrawal amount] }, true)
  else
    (a, false)

/-- Mirrors `Account::activate`: unconditionally sets `is_active` to true. -/
def Account.activate (a : Account) : Account :=
  { a with is_active := true }

/-- Mirrors `Account::deactivate`: unconditionally sets `is_active` to false. -/
def Account.deactivate (a : Account) : Account :=
  { a with is_active := false }

/-- Mirrors Rust `struct Bank { accounts: HashMap<String, Account> }`;
the hash map is embedded as a function from keys to optional accounts. -/
structure Bank where
  accounts : String → Option Account

/-- Mirrors `Bank::new`: an empty map. -/
def Bank.new : Bank :=
  ⟨fun _ => none⟩

/-- `HashMap::insert`: point update of the accounts map. -/
def Bank.insert (b : Bank) (account_number : String) (a : Account) : Bank :=
  ⟨fun k => if k = account_number then some a else b.accounts k⟩

/-- Mirrors `Bank::create_account`: inserts a fresh `Account::new`, replacing any
existing entry at that key. -/
def Bank.create_account (b : Bank) (account_number : String) (account_type : AccountType) :
    Bank :=
  b.insert account_number (Account.new account_type)

/-- Mirrors `Bank::deposit`: absent key reports `false` with no mutation; otherwise
delegates to `Account.deposit` and reports `true` unconditionally. -/
def Bank.deposit (b : Bank) (account_number : String) (amount : ℚ) : Bank × Bool :=
  match b.accounts account_number with
  | some a => (b.insert account_number (a.deposit amount), true)
  | none => (b, false)

/-- Mirrors `Bank::withdraw`: absent key reports `false` with no mutation; otherwise
returns `Account.withdraw`'s result directly. -/
def Bank.withdraw (b : Bank) (account_number : String) (amount : ℚ) : Bank × Bool :=
  match b.accounts account_number with
  | some a => (b.insert account_number (a.withdraw amount).1, (a.withdraw amount).2)
  | none => (b, false)

/-- Mirrors `Bank::balance`: pure read, `none` when absent. -/
def Bank.balance (b : Bank) (account_number : String) : Option ℚ :=
  (b.accounts account_number).map Account.balance

/-- Mirrors `Bank::transfer`: requires both accounts to exist; attempts the source
withdrawal; on its success deposits into the destination and pushes a Transfer record
onto both histories (source first), recording the counterparty id on each side.
The Rust method holds two simultaneous `&mut` borrows of distinct map entries, so the
source and destination updates act on the accounts fetched up front. -/
def Bank.transfer (b : Bank) (from_account to_account : String) (amount : ℚ) :
    Bank × Bool :=
  match b.accounts from_account, b.accounts to_account with
  | some fa, some ta =>
      if (fa.withdraw amount).2 then
        ((b.insert from_account
            { (fa.withdraw amount).1 with
              transactions := (fa.withdraw amount).1.transactions ++
                [Transaction.Transfer amount to_account] }).insert to_account
            { ta.deposit amount with
              transactions := (ta.deposit amount).transactions ++
                [Transaction.Transfer amount from_account] }, true)
      else
        (b, false)
  | _, _ => (b, false)

/-- Mirrors `Bank::get_account_type`: pure read, `none` when absent. -/
def Bank.get_account_type (b : Bank) (account_number : String) : Option AccountType :=
  (b.accounts account_number).map Account.account_type

/-- Mirrors `Bank::get_transactions`: pure read, `none` when absent. -/
def Bank.get_transactions (b : Bank) (account_number : String) :
    Option (List Transaction) :=
  (b.accounts account_number).map Account.transactions

/-- Mirrors `Bank::activate_account`: `false` when absent, else activates and
reports `true`. -/
def Bank.activate_account (b : Bank) (account_number : String) : Bank × Bool :=
  match b.accounts account_number with
  | some a => (b.insert account_number a.activate, true)
  | none => (b, false)

/-- Mirrors `Bank::deactivate_account`: `false` when absent, else deactivates and
reports `true`. -/
def Bank.deactivate_account (b : Bank) (account_number : String) : Bank × Bool :=
  match b.accounts account_number with
  | some a => (b.insert account_number a.deactivate, true)
  | none => (b, false)

/-- Two banks with pointwise-equal account maps are equal. -/
theorem Bank.eq_of_accounts_eq (b b' : Bank) (h : ∀ k, b.accounts k = b'.accounts k) :
    b = b' := by
  cases b
  cases b'
  exact congrArg Bank.mk (funext h)

/-- Re-inserting the account already stored at a key leaves the bank unchanged. -/
theorem Bank.insert_self (b : Bank) (id : String) (a : Account)
    (h : b.accounts id = some a) : b.insert id a = b := by
  apply Bank.eq_of_accounts_eq
  intro k
  by_cases hk : k = id
  · subst hk
    simp [Bank.insert, h]
  · simp [Bank.insert, hk]

/-- The bank reached in the spec scenario: accounts "A1" and "A2" created as Savings,
100 deposited into "A1", "A2" deactivated. -/
def scenarioBank : Bank :=
  ((((Bank.new.create_account "A1" AccountType.Savings).create_account
      "A2" AccountType.Savings).deposit "A1" 100).1.deactivate_account "A2").1

/-- C4: the spec scenario — create "A1" and "A2" (Savings), deposit 100 into "A1",
deactivate "A2", transfer 30 from "A1" to "A2" — reports success, leaves "A1" at
balance 70 with the Transfer(30,"A2") record appended to its history, and leaves "A2"
at balance 0 while the Transfer(30,"A1") record is still appended to its history. -/
theorem scenario_spec :
    (scenarioBank.transfer "A1" "A2" 30).2 = true ∧
    (scenarioBank.transfer "A1" "A2" 30).1.balance "A1" = some 70 ∧
    (scenarioBank.transfer "A1" "A2" 30).1.balance "A2" = some 0 ∧
    (scenarioBank.transfer "A1" "A2" 30).1.get_transactions "A1" =
      some [Transaction.Deposit 100, Transaction.Withdrawal 30,
        Transaction.Transfer 30 "A2"] ∧
    (scenarioBank.transfer "A1" "A2" 30).1.get_transactions "A2" =
      some [Transaction.Transfer 30 "A1"] := by
  simp +decide [scenarioBank, Bank.new, Bank.create_account, Bank.insert, Bank.deposit,
    Bank.withdraw, Bank.transfer, Bank.deactivate_account, Account.deposit,
    Account.withdraw, Account.deactivate, Account.new, Bank.balance,
    Bank.get_transactions]
  norm_num

/-- C1: for every account stored in the ledger, `withdraw(amount)` succeeds iff the
account is active and `amount ≤ balance`; on success the balance decreases by exactly
`amount` and one Withdrawal record is appended while every other key is untouched; on
failure the entire bank (hence balance and history) is unchanged. -/
theorem withdraw_spec (b : Bank) (id : String) (a : Account) (amount : ℚ)
    (h : b.accounts id = some a) :
    ((b.withdraw id amount).2 = true ↔ a.is_active = true ∧ amount ≤ a.balance) ∧
    ((b.withdraw id amount).2 = true →
      (b.withdraw id amount).1.accounts id =
        some { a with
                balance := a.balance - amount
                transactions := a.transactions ++ [Transaction.Withdrawal amount] } ∧
      ∀ k, k ≠ id → (b.withdraw id amount).1.accounts k = b.accounts k) ∧
    ((b.withdraw id amount).2 = false → (b.withdraw id amount).1 = b) := by
  have hw : b.withdraw id amount =
      (b.insert id (a.withdraw amount).1, (a.withdraw amount).2) := by
    simp [Bank.withdraw, h]
  rw [hw]
  by_cases ha : a.is_active = true
  · by_cases hle : amount ≤ a.balance
    · have h2 : a.withdraw amount =
          ({ a with
              balance := a.balance - amount
              transactions := a.transactions ++ [Transaction.Withdrawal amount] },
            true) := by
        simp [Account.withdraw, ha, not_lt.mpr hle]
      rw [h2]
      exact ⟨by simp [ha, hle],
        fun _ => ⟨by simp [Bank.insert], fun k hk => by simp [Bank.insert, hk]⟩,
        by simp⟩
    · have h2 : a.withdraw amount = (a, false) := by
        simp [Account.withdraw, ha, not_le.mp hle]
      rw [h2]
      exact ⟨by simp [hle], by simp, fun _ => Bank.insert_self b id a h⟩
  · have h2 : a.withdraw amount = (a, false) := by
      simp [Account.withdraw, ha]
    rw [h2]
    exact ⟨by simp [ha], by simp, fun _ => Bank.insert_self b id a h⟩

/-- Witness for C1 at a concrete bank: an active account holding 100 lets 40 be
withdrawn. -/
theorem withdraw_spec_witness :
    ((Bank.new.insert "A" ⟨100, AccountType.Checking, [], true⟩).withdraw "A" 40).2 =
      true :=
  (withdraw_spec (Bank.new.insert "A" ⟨100, AccountType.Checking, [], true⟩) "A"
      ⟨100, AccountType.Checking, [], true⟩ 40 (by simp [Bank.insert])).1.mpr
    ⟨rfl, by norm_num⟩

/-- C3: ledger-level deposit reports success whenever the account exists, even when it
is inactive; when active the balance increases by exactly `amount` and one Deposit
record is appended while other keys are untouched; when inactive the entire bank is
unchanged (the deposit is silently dropped while success is still reported). -/
theorem deposit_spec (b : Bank) (id : String) (a : Account) (amount : ℚ)
    (h : b.accounts id = some a) :
    (b.deposit id amount).2 = true ∧
    (a.is_active = true →
      (b.deposit id amount).1.accounts id =
        some { a with
                balance := a.balance + amount
                transactions := a.transactions ++ [Transaction.Deposit amount] } ∧
      ∀ k, k ≠ id → (b.deposit id amount).1.accounts k = b.accounts k) ∧
    (a.is_active = false → (b.deposit id amount).1 = b) := by
  have hw : b.deposit id amount = (b.insert id (a.deposit amount), true) := by
    simp [Bank.deposit, h]
  rw [hw]
  refine ⟨rfl, fun ha => ?_, fun ha => ?_⟩
  · have h2 : a.deposit amount =
        { a with
          balance := a.balance + amount
          transactions := a.transactions ++ [Transaction.Deposit amount] } := by
      simp [Account.deposit, ha]
    rw [h2]
    exact ⟨by simp [Bank.insert], fun k hk => by simp [Bank.insert, hk]⟩
  · have h2 : a.deposit amount = a := by
      simp [Account.deposit, ha]
    rw [h2]
    exact Bank.insert_self b id a h

/-- Witness for C3 at a concrete bank: depositing into an existing inactive account
still reports success. -/
theorem deposit_spec_witness :
    ((Bank.new.insert "A" ⟨5, AccountType.Savings, [], false⟩).deposit "A" 7).2 =
      true :=
  (deposit_spec (Bank.new.insert "A" ⟨5, AccountType.Savings, [], false⟩) "A"
      ⟨5, AccountType.Savings, [], false⟩ 7 (by simp [Bank.insert])).1

/-- Depositing never changes the account type. -/
theorem Account.deposit_account_type (a : Account) (amount : ℚ) :
    (a.deposit amount).account_type = a.account_type := by
  by_cases ha : a.is_active = true <;> simp [Account.deposit, ha]

/-- Withdrawing never changes the account type. -/
theorem Account.withdraw_account_type (a : Account) (amount : ℚ) :
    (a.withdraw amount).1.account_type = a.account_type := by
  by_cases ha : a.is_active = true
  · by_cases hgt : amount > a.balance <;> simp [Account.withdraw, ha, hgt]
  · simp [Account.withdraw, ha]

/-- Reading the account type through an insertion. -/
theorem Bank.insert_get_account_type (b : Bank) (id : String) (a : Account)
    (k : String) :
    (b.insert id a).get_account_type k =
      if k = id then some a.account_type else b.get_account_type k := by
  by_cases hk : k = id <;> simp [Bank.insert, Bank.get_account_type, hk]

/-- C9: activate and deactivate are idempotent at both the account level and the
ledger level, and neither changes balance or transaction history. -/
theorem activation_idempotent_spec (a : Account) (b : Bank) (id k : String) :
    a.activate.activate = a.activate ∧
    a.deactivate.deactivate = a.deactivate ∧
    a.activate.is_active = true ∧
    a.deactivate.is_active = false ∧
    a.activate.balance = a.balance ∧
    a.activate.transactions = a.transactions ∧
    a.deactivate.balance = a.balance ∧
    a.deactivate.transactions = a.transactions ∧
    ((b.activate_account id).1.activate_account id).1.accounts k =
      (b.activate_account id).1.accounts k ∧
    ((b.deactivate_account id).1.deactivate_account id).1.accounts k =
      (b.deactivate_account id).1.accounts k := by
  refine ⟨rfl, rfl, rfl, rfl, rfl, rfl, rfl, rfl, ?_, ?_⟩
  · cases hb : b.accounts id with
    | none => simp [Bank.activate_account, hb]
    | some a0 =>
        by_cases hk : k = id <;>
          simp [Bank.activate_account, hb, Bank.insert, Account.activate, hk]
  · cases hb : b.accounts id with
    | none => simp [Bank.deactivate_account, hb]
    | some a0 =>
        by_cases hk : k = id <;>
          simp [Bank.deactivate_account, hb, Bank.insert, Account.deactivate, hk]

/-- C10: `account_type` is fixed at creation and immutable thereafter —
`create_account` stores exactly the given type, and every other ledger operation
preserves the type of every account in the ledger. -/
theorem account_type_immutable_spec (b : Bank) (id A B k : String) (amount : ℚ)
    (t : AccountType) :
    (b.create_account id t).get_account_type id = some t ∧
    (b.deposit id amount).1.get_account_type k = b.get_account_type k ∧
    (b.withdraw id amount).1.get_account_type k = b.get_account_type k ∧
    (b.transfer A B amount).1.get_account_type k = b.get_account_type k ∧
    (b.activate_account id).1.get_account_type k = b.get_account_type k ∧
    (b.deactivate_account id).1.get_account_type k = b.get_account_type k := by
  refine ⟨?_, ?_, ?_, ?_, ?_, ?_⟩
  · simp [Bank.create_account, Bank.insert_get_account_type, Account.new]
  · cases hb : b.accounts id with
    | none => simp [Bank.deposit, hb]
    | some a =>
        by_cases hk : k = id
        · subst hk
          simp [Bank.deposit, hb, Bank.insert, Bank.insert_get_account_type,
            Account.deposit_account_type, Bank.get_account_type]
        · simp [Bank.deposit, hb, Bank.insert_get_account_type, hk]
  · cases hb : b.accounts id with
    | none => simp [Bank.withdraw, hb]
    | some a =>
        by_cases hk : k = id
        · subst hk
          simp [Bank.withdraw, hb, Bank.insert, Bank.insert_get_account_type,
            Account.withdraw_account_type, Bank.get_account_type]
        · simp [Bank.withdraw, hb, Bank.insert_get_account_type, hk]
  · cases hA : b.accounts A with
    | none => simp [Bank.transfer, hA]
    | some fa =>
        cases hB : b.accounts B with
        | none => simp [Bank.transfer, hA, hB]
        | some ta =>
            by_cases hs : (fa.withdraw amount).2 = true
            · by_cases hkB : k = B
              · subst hkB
                simp [Bank.transfer, hA, hB, hs, Bank.insert,
                  Account.deposit_account_type, Bank.get_account_type]
              · by_cases hkA : k = A
                · subst hkA
                  simp [Bank.transfer, hA, hB, hs, Bank.insert, hkB,
                    Account.withdraw_account_type, Bank.get_account_type]
                · simp [Bank.transfer, hA, hB, hs, Bank.insert_get_account_type,
                    hkB, hkA]
            · simp [Bank.transfer, hA, hB, hs]
  · cases hb : b.accounts id with
    | none => simp [Bank.activate_account, hb]
    | some a =>
        by_cases hk : k = id
        · subst hk
          simp [Bank.activate_account, hb, Bank.insert, Account.activate,
            Bank.get_account_type]
        · simp [Bank.activate_account, hb, Bank.insert_get_account_type, hk]
  · cases hb : b.accounts id with
    | none => simp [Bank.deactivate_account, hb]
    | some a =>
        by_cases hk : k = id
        · subst hk
          simp [Bank.deactivate_account, hb, Bank.insert, Account.deactivate,
            Bank.get_account_type]
        · simp [Bank.deactivate_account, hb, Bank.insert_get_account_type, hk]

/-- C7: every ledger operation invoked with an identifier absent from the map returns
the not-found result (`false` or `none`) and leaves the whole bank unchanged; transfer
fails with no mutation when either endpoint is absent. -/
theorem not_found_spec (b : Bank) (id A B : String) (amount : ℚ)
    (h : b.accounts id = none) :
    b.deposit id amount = (b, false) ∧
    b.withdraw id amount = (b, false) ∧
    b.balance id = none ∧
    b.get_account_type id = none ∧
    b.get_transactions id = none ∧
    b.activate_account id = (b, false) ∧
    b.deactivate_account id = (b, false) ∧
    ((b.accounts A = none ∨ b.accounts B = none) →
      b.transfer A B amount = (b, false)) := by
  refine ⟨by simp [Bank.deposit, h], by simp [Bank.withdraw, h],
    by simp [Bank.balance, h], by simp [Bank.get_account_type, h],
    by simp [Bank.get_transactions, h], by simp [Bank.activate_account, h],
    by simp [Bank.deactivate_account, h], fun hab => ?_⟩
  rcases hab with hA | hB
  · cases hB2 : b.accounts B <;> simp [Bank.transfer, hA, hB2]
  · cases hA2 : b.accounts A <;> simp [Bank.transfer, hA2, hB]

/-- Witness for C7 on the empty bank: deposit and transfer with unknown identifiers
fail without mutation. -/
theorem not_found_spec_witness :
    Bank.new.deposit "x" 1 = (Bank.new, false) ∧
    Bank.new.transfer "x" "y" 1 = (Bank.new, false) :=
  ⟨(not_found_spec Bank.new "x" "x" "y" 1 rfl).1,
    (not_found_spec Bank.new "x" "x" "y" 1 rfl).2.2.2.2.2.2.2 (Or.inl rfl)⟩

/-- C8: `create_account` stores a fresh account — zero balance, the given type, empty
history, active — under the identifier, replacing any existing entry at that key, and
leaves every other key untouched. -/
theorem create_account_spec (b : Bank) (id : String) (t : AccountType) :
    (b.create_account id t).accounts id = some (Account.new t) ∧
    Account.new t =
      { balance := 0, account_type := t, transactions := [], is_active := true } ∧
    ∀ k, k ≠ id → (b.create_account id t).accounts k = b.accounts k := by
  refine ⟨by simp [Bank.create_account, Bank.insert], rfl, fun k hk => ?_⟩
  simp [Bank.create_account, Bank.insert, hk]

/-- Witness for C8: re-creating "A" over an existing account with history replaces it
with a fresh Savings account, and key "B" is untouched. -/
theorem create_account_spec_witness :
    ((Bank.new.insert "A"
        ⟨100, AccountType.Checking, [Transaction.Deposit 100], true⟩).create_account
          "A" AccountType.Savings).accounts "A" =
      some (Account.new AccountType.Savings) ∧
    ((Bank.new.insert "A"
        ⟨100, AccountType.Checking, [Transaction.Deposit 100], true⟩).create_account
          "A" AccountType.Savings).accounts "B" =
      (Bank.new.insert "A"
        ⟨100, AccountType.Checking, [Transaction.Deposit 100], true⟩).accounts "B" :=
  ⟨(create_account_spec
      (Bank.new.insert "A" ⟨100, AccountType.Checking, [Transaction.Deposit 100], true⟩)
      "A" AccountType.Savings).1,
    (create_account_spec
      (Bank.new.insert "A" ⟨100, AccountType.Checking, [Transaction.Deposit 100], true⟩)
      "A" AccountType.Savings).2.2 "B" (by decide)⟩

/-- A two-account bank used in witnesses: "A" active holding 100, "B" inactive
holding 0. -/
def transferBank : Bank :=
  (Bank.new.insert "A" ⟨100, AccountType.Checking, [], true⟩).insert "B"
    ⟨0, AccountType.Savings, [], false⟩

/-- A two-account bank used in witnesses: "A" inactive holding 100, "B" active
holding 0. -/
def failBank : Bank :=
  (Bank.new.insert "A" ⟨100, AccountType.Checking, [], false⟩).insert "B"
    ⟨0, AccountType.Savings, [], true⟩

/-- C2: with both endpoints present and distinct, transfer is all-or-nothing for the
source: it fails exactly when the source is inactive or `amount` exceeds the source
balance, and then the whole bank is unchanged; on success the source balance drops by
exactly `amount` with a Transfer(amount, B) record appended to the source history,
and a Transfer(amount, A) record is appended to the destination history even when
the destination is inactive, in which case the destination balance is unchanged. -/
theorem transfer_spec (b : Bank) (A B : String) (fa ta : Account) (amount : ℚ)
    (hA : b.accounts A = some fa) (hB : b.accounts B = some ta) (hne : A ≠ B) :
    ((b.transfer A B amount).2 = false ↔
      (fa.is_active = false ∨ fa.balance < amount)) ∧
    ((b.transfer A B amount).2 = false → (b.transfer A B amount).1 = b) ∧
    ((b.transfer A B amount).2 = true →
      (b.transfer A B amount).1.balance A = some (fa.balance - amount) ∧
      (b.transfer A B amount).1.get_transactions A =
        some (fa.transactions ++
          [Transaction.Withdrawal amount, Transaction.Transfer amount B]) ∧
      (b.transfer A B amount).1.get_transactions B =
        some ((ta.deposit amount).transactions ++ [Transaction.Transfer amount A]) ∧
      (ta.is_active = false →
        (b.transfer A B amount).1.balance B = some ta.balance ∧
        (b.transfer A B amount).1.get_transactions B =
          some (ta.transactions ++ [Transaction.Transfer amount A]))) := by
  by_cases ha : fa.is_active = true
  · by_cases hle : amount ≤ fa.balance
    · have hw : fa.withdraw amount =
          ({ fa with
              balance := fa.balance - amount
              transactions := fa.transactions ++ [Transaction.Withdrawal amount] },
            true) := by
        simp [Account.withdraw, ha, not_lt.mpr hle]
      refine ⟨by simp [Bank.transfer, hA, hB, hw, ha, not_lt.mpr hle],
        by simp [Bank.transfer, hA, hB, hw], fun _ => ⟨?_, ?_, ?_, fun hta => ⟨?_, ?_⟩⟩⟩
      · simp [Bank.transfer, hA, hB, hw, Bank.insert, Bank.balance, hne]
      · simp [Bank.transfer, hA, hB, hw, Bank.insert, Bank.get_transactions, hne]
      · simp [Bank.transfer, hA, hB, hw, Bank.insert, Bank.get_transactions]
      · simp [Bank.transfer, hA, hB, hw, Bank.insert, Bank.balance,
          Account.deposit, hta]
      · simp [Bank.transfer, hA, hB, hw, Bank.insert, Bank.get_transactions,
          Account.deposit, hta]
    · have hw : fa.withdraw amount = (fa, false) := by
        simp [Account.withdraw, ha, not_le.mp hle]
      exact ⟨by simp [Bank.transfer, hA, hB, hw, not_le.mp hle],
        fun _ => by simp [Bank.transfer, hA, hB, hw], by simp [Bank.transfer, hA, hB, hw]⟩
  · have hw : fa.withdraw amount = (fa, false) := by
      simp [Account.withdraw, ha]
    exact ⟨by simp [Bank.transfer, hA, hB, hw, ha],
      fun _ => by simp [Bank.transfer, hA, hB, hw], by simp [Bank.transfer, hA, hB, hw]⟩

/-- Witness for C2: a transfer out of an inactive source fails and leaves the
two-account bank unchanged. -/
theorem transfer_spec_witness :
    (failBank.transfer "A" "B" 30).1 = failBank :=
  (transfer_spec failBank "A" "B" ⟨100, AccountType.Checking, [], false⟩
      ⟨0, AccountType.Savings, [], true⟩ 30 (by simp [failBank, Bank.insert])
      (by simp [failBank, Bank.insert]) (by decide)).2.1
    ((transfer_spec failBank "A" "B" ⟨100, AccountType.Checking, [], false⟩
        ⟨0, AccountType.Savings, [], true⟩ 30 (by simp [failBank, Bank.insert])
        (by simp [failBank, Bank.insert]) (by decide)).1.mpr (Or.inl rfl))

/-- C5: on every successful transfer between distinct existing accounts the source
history gains a Withdrawal(amount) record appended before the Transfer(amount, B)
record — two new records — and an active destination's history gains a
Deposit(amount) record appended before the Transfer(amount, A) record — likewise two
new records. -/
theorem transfer_history_spec (b : Bank) (A B : String) (fa ta : Account) (amount : ℚ)
    (hA : b.accounts A = some fa) (hB : b.accounts B = some ta) (hne : A ≠ B)
    (hs : (b.transfer A B amount).2 = true) :
    (b.transfer A B amount).1.get_transactions A =
      some (fa.transactions ++
        [Transaction.Withdrawal amount, Transaction.Transfer amount B]) ∧
    ((b.transfer A B amount).1.get_transactions A).map List.length =
      some (fa.transactions.length + 2) ∧
    (ta.is_active = true →
      (b.transfer A B amount).1.get_transactions B =
        some (ta.transactions ++
          [Transaction.Deposit amount, Transaction.Transfer amount A]) ∧
      ((b.transfer A B amount).1.get_transactions B).map List.length =
        some (ta.transactions.length + 2)) := by
  by_cases hw2 : (fa.withdraw amount).2 = true
  · have ha : fa.is_active = true := by
      by_contra hna
      simp [Account.withdraw, hna] at hw2
    have hle : amount ≤ fa.balance := by
      by_contra hgt
      simp [Account.withdraw, ha, not_le.mp hgt] at hw2
    have hw : fa.withdraw amount =
        ({ fa with
            balance := fa.balance - amount
            transactions := fa.transactions ++ [Transaction.Withdrawal amount] },
          true) := by
      simp [Account.withdraw, ha, not_lt.mpr hle]
    refine ⟨?_, ?_, fun hta => ⟨?_, ?_⟩⟩
    · simp [Bank.transfer, hA, hB, hw, Bank.insert, Bank.get_transactions, hne]
    · simp [Bank.transfer, hA, hB, hw, Bank.insert, Bank.get_transactions, hne]
    · simp [Bank.transfer, hA, hB, hw, Bank.insert, Bank.get_transactions,
        Account.deposit, hta]
    · simp [Bank.transfer, hA, hB, hw, Bank.insert, Bank.get_transactions,
        Account.deposit, hta]
  · simp [Bank.transfer, hA, hB, hw2] at hs

/-- Witness for C5: after the successful transfer of 30 out of the active account
"A", its history reads Withdrawal(30) then Transfer(30, "B"). -/
theorem transfer_history_spec_witness :
    (transferBank.transfer "A" "B" 30).1.get_transactions "A" =
      some [Transaction.Withdrawal 30, Transaction.Transfer 30 "B"] :=
  (transfer_history_spec transferBank "A" "B" ⟨100, AccountType.Checking, [], true⟩
      ⟨0, AccountType.Savings, [], false⟩ 30 (by simp [transferBank, Bank.insert])
      (by simp [transferBank, Bank.insert]) (by decide)
      (by simp +decide [transferBank, Bank.transfer, Bank.insert, Bank.new,
        Account.withdraw])).1

/-- C6: balances never go below zero through withdraw or transfer-out — any
successful account-level withdraw leaves a nonnegative balance, and any successful
transfer leaves the source with the nonnegative balance `fa.balance - amount` — while
deposits on an active account apply any amount unconditionally, with no
nonnegative-amount validation. -/
theorem balance_nonneg_spec :
    (∀ (a : Account) (amount : ℚ),
      (a.withdraw amount).2 = true → 0 ≤ (a.withdraw amount).1.balance) ∧
    (∀ (b : Bank) (A B : String) (fa : Account) (amount : ℚ),
      b.accounts A = some fa → A ≠ B → (b.transfer A B amount).2 = true →
        (b.transfer A B amount).1.balance A = some (fa.balance - amount) ∧
        0 ≤ fa.balance - amount) ∧
    (∀ (a : Account) (amount : ℚ),
      a.is_active = true → (a.deposit amount).balance = a.balance + amount) := by
  have hacc : ∀ (a : Account) (amount : ℚ), (a.withdraw amount).2 = true →
      (a.withdraw amount).1.balance = a.balance - amount ∧ amount ≤ a.balance := by
    intro a amount hs
    by_cases ha : a.is_active = true
    · by_cases hle : amount ≤ a.balance
      · simp [Account.withdraw, ha, not_lt.mpr hle, hle]
      · simp [Account.withdraw, ha, not_le.mp hle] at hs
    · simp [Account.withdraw, ha] at hs
  refine ⟨fun a amount hs => ?_, fun b A B fa amount hA hne hs => ?_,
    fun a amount ha => by simp [Account.deposit, ha]⟩
  · rcases hacc a amount hs with ⟨hbal, hle⟩
    rw [hbal]
    exact sub_nonneg.mpr hle
  · cases hB : b.accounts B with
    | none => simp [Bank.transfer, hA, hB] at hs
    | some ta =>
        by_cases hw2 : (fa.withdraw amount).2 = true
        · rcases hacc fa amount hw2 with ⟨hbal, hle⟩
          have hw : fa.withdraw amount =
              ({ fa with
                  balance := fa.balance - amount
                  transactions :=
                    fa.transactions ++ [Transaction.Withdrawal amount] },
                true) := by
            have ha : fa.is_active = true := by
              by_contra hna
              simp [Account.withdraw, hna] at hw2
            simp [Account.withdraw, ha, not_lt.mpr hle]
          exact ⟨by simp [Bank.transfer, hA, hB, hw, Bank.insert, Bank.balance, hne],
            sub_nonneg.mpr hle⟩
        · simp [Bank.transfer, hA, hB, hw2] at hs

/-- Witness for C6: withdrawing 30 from an active account holding 100 leaves a
nonnegative balance. -/
theorem balance_nonneg_spec_witness :
    0 ≤ ((⟨100, AccountType.Checking, [], true⟩ : Account).withdraw 30).1.balance :=
  balance_nonneg_spec.1 ⟨100, AccountType.Checking, [], true⟩ 30
    (by norm_num [Account.withdraw])
